import Mathlib

set_option autoImplicit false

namespace BackupSetup

/-! Shallow embedding of `setup_application_consistent_backup_opensource.py`.

The filesystem is an explicit state (a set of directories and an association
list of files carrying content and permission bits).  OS calls that can fail
(`os.makedirs`, `open`/`write`, `os.chmod`) consult an `Env` of outcomes, so
theorems can quantify over every pattern of OS-level failure.  Every primitive
also records the operation it attempted in an event trace. -/

structure FileEntry where
  content : String
  mode : Nat
deriving DecidableEq, Repr

structure FS where
  dirs : List String
  files : List (String × FileEntry)
deriving DecidableEq, Repr

def FS.lookupFile (fs : FS) (p : String) : Option FileEntry :=
  (fs.files.find? (fun kv => kv.1 == p)).map Prod.snd

def FS.setFile (fs : FS) (p : String) (e : FileEntry) : FS :=
  { fs with files := fs.files.filter (fun kv => !(kv.1 == p)) ++ [(p, e)] }

inductive Event where
  | mkdirOp (path : String)
  | writeOp (path : String)
  | chmodOp (path : String) (mode : Nat)
deriving DecidableEq, Repr

structure OSState where
  fs : FS
  events : List Event
deriving DecidableEq, Repr

/-- Outcomes of the OS calls the script performs: whether `os.geteuid` exists
and what it returns, whether `os.makedirs` succeeds, whether writing to /
chmod-ing a given path succeeds, and the mode bits a freshly created file
receives from the OS (0666 masked by the umask). -/
structure Env where
  geteuidAvailable : Bool
  euid : Nat
  makedirsOk : Bool
  writeOk : String → Bool
  chmodOk : String → Bool
  createMode : Nat

def pathComponentsAux : List Char → List Char → List String
  | [], acc => if acc = [] then [] else [String.mk acc.reverse]
  | c :: cs, acc =>
    if c = '/' then
      if acc = [] then pathComponentsAux cs []
      else String.mk acc.reverse :: pathComponentsAux cs []
    else pathComponentsAux cs (c :: acc)

/-- The non-empty components of a slash-separated path. -/
def pathComponents (p : String) : List String :=
  pathComponentsAux p.data []

/-- All directories `os.makedirs p` creates: each proper prefix of `p` plus
`p` itself, e.g. `/etc` and `/etc/azure` for `p = "/etc/azure"`. -/
def ancestorPaths (p : String) : List String :=
  (pathComponents p).foldl (fun acc c => acc ++ [((acc.getLast?).getD "") ++ "/" ++ c]) []

def addDir (dirs : List String) (d : String) : List String :=
  if d ∈ dirs then dirs else dirs ++ [d]

/-- `os.makedirs(path, exist_ok=True)`: on success all missing ancestors of
`path` come to exist; on failure the filesystem is unchanged. -/
def osMakedirs (env : Env) (s : OSState) (path : String) : OSState × Bool :=
  let s1 := { s with events := s.events ++ [Event.mkdirOp path] }
  if env.makedirsOk then
    ({ s1 with fs := { s1.fs with dirs := (ancestorPaths path).foldl addDir s1.fs.dirs } }, true)
  else (s1, false)

/-- `open(path, mode_w)` followed by `f.write(content)`: on success the file
holds exactly `content`; an existing file keeps its mode bits, a new file gets
`env.createMode`.  On failure the filesystem is unchanged. -/
def osWriteFile (env : Env) (s : OSState) (path content : String) : OSState × Bool :=
  let s1 := { s with events := s.events ++ [Event.writeOp path] }
  if env.writeOk path then
    let mode := match s.fs.lookupFile path with
      | some e => e.mode
      | none => env.createMode
    ({ s1 with fs := s1.fs.setFile path { content := content, mode := mode } }, true)
  else (s1, false)

/-- `os.chmod(path, mode)`: fails when the env says so or when the file does
not exist; on success only the mode bits of `path` change. -/
def osChmod (env : Env) (s : OSState) (path : String) (mode : Nat) : OSState × Bool :=
  let s1 := { s with events := s.events ++ [Event.chmodOp path mode] }
  if env.chmodOk path then
    match s.fs.lookupFile path with
    | some e => ({ s1 with fs := s1.fs.setFile path { content := e.content, mode := mode } }, true)
    | none => (s1, false)
  else (s1, false)

/-- `os.path.join(a, b)` as the script uses it (`b` relative): insert the
separator unless `a` already ends with it. -/
def os_path_join (a b : String) : String :=
  if a.data.getLast? = some '/' then a ++ b else a ++ "/" ++ b

def S_IRUSR : Nat := 0o400
def S_IWUSR : Nat := 0o200
def S_IRWXU : Nat := 0o700

def PRE_BACKUP_CONTENT : String :=
  "#!/bin/bash\n\n# Define logging function\nlog_message() \x7b\n    echo \"[$(date \x27+%Y-%m-%d %H:%M:%S\x27)] $1\" | sudo tee -a /var/log/azure-backup.log > /dev/null\n\x7d\n\n# Pause the application before backup\nlog_message \"Pre-backup script started - pausing application\"\n\n# Example: Stop your application service\n# Replace \x27your-app-service\x27 with your actual service name\nSERVICE_NAME=\"your-app-service\"\n\n# Check if the service is running before attempting to stop it\nif systemctl is-active --quiet $SERVICE_NAME; then\n    sudo systemctl stop $SERVICE_NAME\n    if [ $? -eq 0 ]; then\n        log_message \"Successfully stopped $SERVICE_NAME\"\n    else\n        log_message \"WARNING: Failed to stop $SERVICE_NAME\"\n        # Continue anyway, as we don\x27t want to fail the backup\n    fi\nelse\n    log_message \"$SERVICE_NAME was not running, nothing to stop\"\nfi\n\n# Additional application-specific commands can be added here\n# Examples:\n# - Stop database connections\n# - Flush application caches\n# - Quiesce file systems\n\n# Flush any filesystem buffers\nsync\n\nlog_message \"Pre-backup script completed\"\nexit 0\n"

def POST_BACKUP_CONTENT : String :=
  "#!/bin/bash\n\n# Define logging function\nlog_message() \x7b\n    echo \"[$(date \x27+%Y-%m-%d %H:%M:%S\x27)] $1\" | sudo tee -a /var/log/azure-backup.log > /dev/null\n\x7d\n\n# Resume the application after backup\nlog_message \"Post-backup script started - resuming application\"\n\n# Example: Start your application service\n# Replace \x27your-app-service\x27 with your actual service name\nSERVICE_NAME=\"your-app-service\"\n\n# Start the service\nsudo systemctl start $SERVICE_NAME\nif [ $? -eq 0 ]; then\n    log_message \"Successfully started $SERVICE_NAME\"\nelse\n    log_message \"ERROR: Failed to start $SERVICE_NAME\"\n    # We don\x27t exit with error as we don\x27t want to mark the backup as failed\n    # but this should be investigated\nfi\n\n# Additional application-specific commands can be added here\n# Examples:\n# - Restart database connections\n# - Reload application configurations\n# - Verify application health\n\nlog_message \"Post-backup script completed\"\nexit 0\n"

def CONFIG_CONTENT : String :=
  "\x7b\n  \"pluginName\": \"ScriptRunner\",\n  \"preScriptLocation\": \"/etc/azure/pre_backup.sh\",\n  \"postScriptLocation\": \"/etc/azure/post_backup.sh\",\n  \"preScriptParams\": [\"\", \"\"],\n  \"postScriptParams\": [\"\", \"\"],\n  \"preScriptNoOfRetries\": 0,\n  \"postScriptNoOfRetries\": 0,\n  \"timeoutInSeconds\": 30,\n  \"continueBackupOnFailure\": true,\n  \"fsFreezeEnabled\": true\n\x7d\n"


/-- `create_directory_if_not_exists(directory)`: try `os.makedirs(directory,
exist_ok=True)`; return `False` on an exception, `True` otherwise. -/
def create_directory_if_not_exists (env : Env) (s : OSState) (directory : String) :
    OSState × Bool :=
  osMakedirs env s directory

/-- `create_file_with_content_and_permissions(file_path, content, permissions)`:
write `content` to `file_path`, then `os.chmod`; an exception in either step is
caught and yields `False` (the chmod is not reached when the write raised). -/
def create_file_with_content_and_permissions (env : Env) (s : OSState)
    (file_path content : String) (permissions : Nat) : OSState × Bool :=
  let r1 := osWriteFile env s file_path content
  if r1.2 then osChmod env r1.1 file_path permissions
  else (r1.1, false)

def azure_dir : String := "/etc/azure"

def pre_backup_dest : String := os_path_join azure_dir "pre_backup.sh"

def post_backup_dest : String := os_path_join azure_dir "post_backup.sh"

def config_dest : String := os_path_join azure_dir "VMSnapshotScriptPluginConfig.json"

/-- `main()`: privilege check (`sys.exit(1)` when `os.geteuid` exists and is
nonzero), directory creation (`sys.exit(1)` on failure), then the three
artifact writes, each recorded in the `success` flag; exit 1 if any failed,
otherwise fall through with exit code 0. -/
def main (env : Env) (s : OSState) : OSState × Nat :=
  if env.geteuidAvailable && env.euid != 0 then
    (s, 1)
  else
    let r0 := create_directory_if_not_exists env s azure_dir
    if !r0.2 then (r0.1, 1)
    else
      let r1 := create_file_with_content_and_permissions env r0.1 config_dest
        CONFIG_CONTENT (S_IRUSR ||| S_IWUSR)
      let r2 := create_file_with_content_and_permissions env r1.1 pre_backup_dest
        PRE_BACKUP_CONTENT S_IRWXU
      let r3 := create_file_with_content_and_permissions env r2.1 post_backup_dest
        POST_BACKUP_CONTENT S_IRWXU
      if r1.2 && r2.2 && r3.2 then (r3.1, 0) else (r3.1, 1)

/-! A small JSON parser, used only to state that `CONFIG_CONTENT` is
syntactically valid JSON of the documented shape.  It follows the RFC 8259
grammar restricted to what the config file uses: no escape sequences inside
strings and integer numbers only. -/

inductive Json where
  | null : Json
  | bool : Bool → Json
  | num : Int → Json
  | str : String → Json
  | arr : List Json → Json
  | obj : List (String × Json) → Json
deriving Repr

def skipWs : List Char → List Char
  | [] => []
  | c :: cs => if c = ' ' ∨ c = '\n' ∨ c = '\t' ∨ c = '\r' then skipWs cs else c :: cs

def lbrace : Char := Char.ofNat 123

def rbrace : Char := Char.ofNat 125

/-- Parse the body of a JSON string after the opening quote, up to and
including the closing quote. -/
def parseStrChars : List Char → Option (List Char × List Char)
  | [] => none
  | c :: cs =>
    if c = '"' then some ([], cs)
    else if c = '\\' then none
    else
      match parseStrChars cs with
      | some (body, rest) => some (c :: body, rest)
      | none => none

def parseDigits : List Char → List Char × List Char
  | [] => ([], [])
  | c :: cs =>
    if c.isDigit then
      let r := parseDigits cs
      (c :: r.1, r.2)
    else ([], c :: cs)

def digitsToNat (ds : List Char) : Nat :=
  ds.foldl (fun n c => n * 10 + (c.toNat - 48)) 0

def dropLit : List Char → List Char → Option (List Char)
  | [], cs => some cs
  | _ :: _, [] => none
  | l :: ls, c :: cs => if l = c then dropLit ls cs else none

mutual

def parseValue (fuel : Nat) (cs : List Char) : Option (Json × List Char) :=
  match fuel with
  | 0 => none
  | f + 1 =>
    match skipWs cs with
    | [] => none
    | c :: rest =>
      if c = '"' then
        match parseStrChars rest with
        | some (body, r) => some (Json.str (String.mk body), r)
        | none => none
      else if c = lbrace then
        match skipWs rest with
        | c2 :: rest2 =>
          if c2 = rbrace then some (Json.obj [], rest2)
          else
            match parseMembers f (c2 :: rest2) with
            | some (ms, r) => some (Json.obj ms, r)
            | none => none
        | [] => none
      else if c = '[' then
        match skipWs rest with
        | c2 :: rest2 =>
          if c2 = ']' then some (Json.arr [], rest2)
          else
            match parseItems f (c2 :: rest2) with
            | some (vs, r) => some (Json.arr vs, r)
            | none => none
        | [] => none
      else if c = '-' then
        match parseDigits rest with
        | ([], _) => none
        | (ds, r) => some (Json.num (-(digitsToNat ds : Int)), r)
      else if c.isDigit then
        match parseDigits (c :: rest) with
        | ([], _) => none
        | (ds, r) => some (Json.num (digitsToNat ds : Int), r)
      else
        match dropLit "true".data (c :: rest) with
        | some r => some (Json.bool true, r)
        | none =>
          match dropLit "false".data (c :: rest) with
          | some r => some (Json.bool false, r)
          | none =>
            match dropLit "null".data (c :: rest) with
            | some r => some (Json.null, r)
            | none => none

def parseItems (fuel : Nat) (cs : List Char) : Option (List Json × List Char) :=
  match fuel with
  | 0 => none
  | f + 1 =>
    match parseValue f cs with
    | none => none
    | some (v, rest) =>
      match skipWs rest with
      | c :: rest2 =>
        if c = ',' then
          match parseItems f rest2 with
          | some (vs, r) => some (v :: vs, r)
          | none => none
        else if c = ']' then some ([v], rest2)
        else none
      | [] => none

def parseMembers (fuel : Nat) (cs : List Char) :
    Option (List (String × Json) × List Char) :=
  match fuel with
  | 0 => none
  | f + 1 =>
    match skipWs cs with
    | [] => none
    | c :: rest =>
      if c = '"' then
        match parseStrChars rest with
        | some (key, rest2) =>
          match skipWs rest2 with
          | c2 :: rest3 =>
            if c2 = ':' then
              match parseValue f rest3 with
              | some (v, rest4) =>
                match skipWs rest4 with
                | c3 :: rest5 =>
                  if c3 = ',' then
                    match parseMembers f rest5 with
                    | some (ms, r) => some ((String.mk key, v) :: ms, r)
                    | none => none
                  else if c3 = rbrace then some ([(String.mk key, v)], rest5)
                  else none
                | [] => none
              | none => none
            else none
          | [] => none
        | none => none
      else none

end

/-- Parse a complete JSON document: one value with only whitespace after it. -/
def parseJsonTop (s : String) : Option Json :=
  match parseValue 1000 s.data with
  | some (v, rest) => if skipWs rest = [] then some v else none
  | none => none

def isStr : Json → Bool
  | Json.str _ => true
  | _ => false

def isInt : Json → Bool
  | Json.num _ => true
  | _ => false

def isBool : Json → Bool
  | Json.bool _ => true
  | _ => false

def isTwoStringArr : Json → Bool
  | Json.arr [Json.str _, Json.str _] => true
  | _ => false

/-- The documented shape of the config object: exactly these ten fields in
this order, with string / two-element string array / integer / boolean
values as the spec lists them. -/
def hasConfigSchema : Json → Bool
  | Json.obj [("pluginName", v1), ("preScriptLocation", v2), ("postScriptLocation", v3),
      ("preScriptParams", v4), ("postScriptParams", v5), ("preScriptNoOfRetries", v6),
      ("postScriptNoOfRetries", v7), ("timeoutInSeconds", v8),
      ("continueBackupOnFailure", v9), ("fsFreezeEnabled", v10)] =>
    isStr v1 && isStr v2 && isStr v3 && isTwoStringArr v4 && isTwoStringArr v5 &&
      isInt v6 && isInt v7 && isInt v8 && isBool v9 && isBool v10
  | _ => false


/-! ### Association-list filesystem lemmas -/

theorem find?_filter_out (l : List (String × FileEntry)) (p : String) :
    (l.filter (fun kv => !(kv.1 == p))).find? (fun kv => kv.1 == p) = none := by
  rw [List.find?_eq_none]
  intro x hx
  have h := (List.mem_filter.mp hx).2
  simp only [Bool.not_eq_true'] at h
  simp [h]

theorem find?_filter_ne (l : List (String × FileEntry)) (p q : String) (h : q ≠ p) :
    (l.filter (fun kv => !(kv.1 == p))).find? (fun kv => kv.1 == q) =
      l.find? (fun kv => kv.1 == q) := by
  induction l with
  | nil => rfl
  | cons kv t ih =>
    by_cases hp : kv.1 = p
    · have hq : ¬ kv.1 = q := fun hh => h (hh ▸ hp)
      have hfilter : (kv :: t).filter (fun kv => !(kv.1 == p)) =
          t.filter (fun kv => !(kv.1 == p)) := by
        simp [List.filter_cons, hp]
      have hfind : List.find? (fun kv => kv.1 == q) (kv :: t) =
          List.find? (fun kv => kv.1 == q) t :=
        List.find?_cons_of_neg _ (by simp [hq])
      rw [hfilter, hfind, ih]
    · have hfilter : (kv :: t).filter (fun kv => !(kv.1 == p)) =
          kv :: t.filter (fun kv => !(kv.1 == p)) := by
        simp [List.filter_cons, hp]
      by_cases hq : kv.1 = q
      · rw [hfilter, List.find?_cons_of_pos _ (by simp [hq]),
          List.find?_cons_of_pos _ (by simp [hq])]
      · rw [hfilter, List.find?_cons_of_neg _ (by simp [hq]),
          List.find?_cons_of_neg _ (by simp [hq]), ih]

theorem lookupFile_setFile_self (fs : FS) (p : String) (e : FileEntry) :
    (fs.setFile p e).lookupFile p = some e := by
  unfold FS.setFile FS.lookupFile
  simp [List.find?_append, find?_filter_out, List.find?]

theorem lookupFile_setFile_ne (fs : FS) (p q : String) (e : FileEntry) (h : q ≠ p) :
    (fs.setFile p e).lookupFile q = fs.lookupFile q := by
  unfold FS.setFile FS.lookupFile
  rw [List.find?_append, find?_filter_ne _ _ _ h]
  have hb : (p == q) = false := beq_eq_false_iff_ne.mpr (Ne.symm h)
  have hnone : List.find? (fun kv => kv.1 == q) [(p, e)] = none := by
    simp [List.find?, hb]
  rw [hnone]
  simp

theorem setFile_dirs (fs : FS) (p : String) (e : FileEntry) :
    (fs.setFile p e).dirs = fs.dirs := rfl

theorem mem_addDir (dirs : List String) (a d : String) :
    d ∈ addDir dirs a ↔ d ∈ dirs ∨ d = a := by
  unfold addDir
  by_cases h : a ∈ dirs
  · simp only [h, if_true]
    constructor
    · exact Or.inl
    · rintro (hd | rfl)
      · exact hd
      · exact h
  · simp [h]

theorem mem_foldl_addDir (l : List String) (dirs : List String) (d : String) :
    d ∈ l.foldl addDir dirs ↔ d ∈ dirs ∨ d ∈ l := by
  induction l generalizing dirs with
  | nil => simp
  | cons a t ih =>
    simp only [List.foldl_cons, ih, mem_addDir, List.mem_cons]
    tauto

/-! ### Lemmas on the OS primitives -/

theorem osMakedirs_events (env : Env) (s : OSState) (path : String) :
    (osMakedirs env s path).1.events = s.events ++ [Event.mkdirOp path] := by
  unfold osMakedirs
  by_cases h : env.makedirsOk = true <;> simp [h]

theorem osMakedirs_snd (env : Env) (s : OSState) (path : String) :
    (osMakedirs env s path).2 = env.makedirsOk := by
  unfold osMakedirs
  by_cases h : env.makedirsOk = true <;> simp [h]

theorem osMakedirs_files (env : Env) (s : OSState) (path : String) :
    (osMakedirs env s path).1.fs.files = s.fs.files := by
  unfold osMakedirs
  by_cases h : env.makedirsOk = true <;> simp [h]

theorem osMakedirs_lookup (env : Env) (s : OSState) (path p : String) :
    (osMakedirs env s path).1.fs.lookupFile p = s.fs.lookupFile p := by
  unfold FS.lookupFile
  rw [osMakedirs_files]

theorem osMakedirs_fail_fs (env : Env) (s : OSState) (path : String)
    (h : env.makedirsOk = false) : (osMakedirs env s path).1.fs = s.fs := by
  unfold osMakedirs
  simp [h]

theorem osMakedirs_dirs_mem (env : Env) (s : OSState) (path d : String)
    (h : env.makedirsOk = true) :
    d ∈ (osMakedirs env s path).1.fs.dirs ↔ d ∈ s.fs.dirs ∨ d ∈ ancestorPaths path := by
  unfold osMakedirs
  simp [h, mem_foldl_addDir]

theorem osMakedirs_dirs_frame (env : Env) (s : OSState) (path d : String)
    (h : d ∉ ancestorPaths path) :
    d ∈ (osMakedirs env s path).1.fs.dirs ↔ d ∈ s.fs.dirs := by
  unfold osMakedirs
  by_cases hm : env.makedirsOk = true <;> simp [hm, mem_foldl_addDir, h]

theorem osWriteFile_snd (env : Env) (s : OSState) (p c : String) :
    (osWriteFile env s p c).2 = env.writeOk p := by
  unfold osWriteFile
  by_cases h : env.writeOk p = true <;> simp [h]

theorem osWriteFile_events (env : Env) (s : OSState) (p c : String) :
    (osWriteFile env s p c).1.events = s.events ++ [Event.writeOp p] := by
  unfold osWriteFile
  by_cases h : env.writeOk p = true <;> simp [h]

theorem osWriteFile_dirs (env : Env) (s : OSState) (p c : String) :
    (osWriteFile env s p c).1.fs.dirs = s.fs.dirs := by
  unfold osWriteFile
  by_cases h : env.writeOk p = true <;> simp [h, setFile_dirs]

theorem osWriteFile_fail_fs (env : Env) (s : OSState) (p c : String)
    (h : env.writeOk p = false) : (osWriteFile env s p c).1.fs = s.fs := by
  unfold osWriteFile
  simp [h]

theorem osWriteFile_lookup_self (env : Env) (s : OSState) (p c : String)
    (h : env.writeOk p = true) :
    (osWriteFile env s p c).1.fs.lookupFile p =
      some { content := c,
             mode := match s.fs.lookupFile p with
                     | some e => e.mode
                     | none => env.createMode } := by
  unfold osWriteFile
  simp [h, lookupFile_setFile_self]

theorem osWriteFile_lookup_ne (env : Env) (s : OSState) (p c q : String)
    (h : q ≠ p) :
    (osWriteFile env s p c).1.fs.lookupFile q = s.fs.lookupFile q := by
  unfold osWriteFile
  by_cases hw : env.writeOk p = true <;> simp [hw, lookupFile_setFile_ne _ _ _ _ h]

theorem osChmod_events (env : Env) (s : OSState) (p : String) (m : Nat) :
    (osChmod env s p m).1.events = s.events ++ [Event.chmodOp p m] := by
  unfold osChmod
  by_cases h : env.chmodOk p = true <;> cases hl : s.fs.lookupFile p <;> simp [h, hl]

theorem osChmod_dirs (env : Env) (s : OSState) (p : String) (m : Nat) :
    (osChmod env s p m).1.fs.dirs = s.fs.dirs := by
  unfold osChmod
  by_cases h : env.chmodOk p = true <;> cases hl : s.fs.lookupFile p <;>
    simp [h, hl, setFile_dirs]

theorem osChmod_snd (env : Env) (s : OSState) (p : String) (m : Nat) :
    (osChmod env s p m).2 = (env.chmodOk p && (s.fs.lookupFile p).isSome) := by
  unfold osChmod
  by_cases h : env.chmodOk p = true <;> cases hl : s.fs.lookupFile p <;> simp [h, hl]

theorem osChmod_lookup_self (env : Env) (s : OSState) (p : String) (m : Nat)
    (e : FileEntry) (h : env.chmodOk p = true) (hl : s.fs.lookupFile p = some e) :
    (osChmod env s p m).1.fs.lookupFile p = some { content := e.content, mode := m } := by
  unfold osChmod
  simp [h, hl, lookupFile_setFile_self]

theorem osChmod_lookup_ne (env : Env) (s : OSState) (p : String) (m : Nat)
    (q : String) (h : q ≠ p) :
    (osChmod env s p m).1.fs.lookupFile q = s.fs.lookupFile q := by
  unfold osChmod
  by_cases hc : env.chmodOk p = true <;> cases hl : s.fs.lookupFile p <;>
    simp [hc, hl, lookupFile_setFile_ne _ _ _ _ h]

/-! ### Lemmas on the two Python helper functions -/

theorem createDir_events (env : Env) (s : OSState) (d : String) :
    (create_directory_if_not_exists env s d).1.events = s.events ++ [Event.mkdirOp d] :=
  osMakedirs_events env s d

theorem createDir_snd (env : Env) (s : OSState) (d : String) :
    (create_directory_if_not_exists env s d).2 = env.makedirsOk :=
  osMakedirs_snd env s d

theorem createDir_lookup (env : Env) (s : OSState) (d p : String) :
    (create_directory_if_not_exists env s d).1.fs.lookupFile p = s.fs.lookupFile p :=
  osMakedirs_lookup env s d p

theorem createFile_snd (env : Env) (s : OSState) (p c : String) (m : Nat) :
    (create_file_with_content_and_permissions env s p c m).2 =
      (env.writeOk p && env.chmodOk p) := by
  simp only [create_file_with_content_and_permissions]
  by_cases hw : env.writeOk p = true
  · rw [osWriteFile_snd]
    simp only [hw, if_true]
    rw [osChmod_snd, osWriteFile_lookup_self env s p c hw]
    simp
  · rw [osWriteFile_snd]
    simp [hw]

theorem createFile_events (env : Env) (s : OSState) (p c : String) (m : Nat) :
    (create_file_with_content_and_permissions env s p c m).1.events =
      s.events ++ (if env.writeOk p then [Event.writeOp p, Event.chmodOp p m]
                   else [Event.writeOp p]) := by
  simp only [create_file_with_content_and_permissions]
  by_cases hw : env.writeOk p = true
  · rw [osWriteFile_snd]
    simp only [hw, if_true]
    rw [osChmod_events, osWriteFile_events]
    simp
  · rw [osWriteFile_snd]
    simp [hw, osWriteFile_events]

theorem createFile_dirs (env : Env) (s : OSState) (p c : String) (m : Nat) :
    (create_file_with_content_and_permissions env s p c m).1.fs.dirs = s.fs.dirs := by
  simp only [create_file_with_content_and_permissions]
  by_cases hw : env.writeOk p = true
  · rw [osWriteFile_snd]
    simp only [hw, if_true]
    rw [osChmod_dirs, osWriteFile_dirs]
  · rw [osWriteFile_snd]
    simp [hw, osWriteFile_dirs]

theorem createFile_lookup_ne (env : Env) (s : OSState) (p c : String) (m : Nat)
    (q : String) (h : q ≠ p) :
    (create_file_with_content_and_permissions env s p c m).1.fs.lookupFile q =
      s.fs.lookupFile q := by
  simp only [create_file_with_content_and_permissions]
  by_cases hw : env.writeOk p = true
  · rw [osWriteFile_snd]
    simp only [hw, if_true]
    rw [osChmod_lookup_ne _ _ _ _ _ h, osWriteFile_lookup_ne _ _ _ _ _ h]
  · rw [osWriteFile_snd]
    simp [hw, osWriteFile_lookup_ne _ _ _ _ _ h]

theorem createFile_lookup_success (env : Env) (s : OSState) (p c : String) (m : Nat)
    (hw : env.writeOk p = true) (hc : env.chmodOk p = true) :
    (create_file_with_content_and_permissions env s p c m).1.fs.lookupFile p =
      some { content := c, mode := m } := by
  simp only [create_file_with_content_and_permissions]
  rw [osWriteFile_snd]
  simp only [hw, if_true]
  rw [osChmod_lookup_self _ _ _ _ _ hc (osWriteFile_lookup_self env s p c hw)]

theorem createFile_content (env : Env) (s : OSState) (p c : String) (m : Nat)
    (hw : env.writeOk p = true) :
    ((create_file_with_content_and_permissions env s p c m).1.fs.lookupFile p).map
      FileEntry.content = some c := by
  simp only [create_file_with_content_and_permissions]
  rw [osWriteFile_snd]
  simp only [hw, if_true]
  by_cases hc : env.chmodOk p = true
  · rw [osChmod_lookup_self _ _ _ _ _ hc (osWriteFile_lookup_self env s p c hw)]
    rfl
  · unfold osChmod
    simp only [Bool.not_eq_true] at hc
    rw [osWriteFile_lookup_self env s p c hw]
    simp [hc, osWriteFile_lookup_self env s p c hw]

theorem createFile_fail_fs (env : Env) (s : OSState) (p c : String) (m : Nat)
    (hw : env.writeOk p = false) :
    (create_file_with_content_and_permissions env s p c m).1.fs = s.fs := by
  simp only [create_file_with_content_and_permissions]
  rw [osWriteFile_snd]
  simp [hw, osWriteFile_fail_fs env s p c hw]

/-! ### Structure of `main` -/

/-- Per-artifact success, as `main` records it in its `success` flag. -/
def artifactOk (env : Env) (p : String) : Bool :=
  env.writeOk p && env.chmodOk p

def allArtifactsOk (env : Env) : Bool :=
  artifactOk env config_dest && artifactOk env pre_backup_dest &&
    artifactOk env post_backup_dest

/-- The events one `create_file_with_content_and_permissions` call emits. -/
def artifactEvents (env : Env) (p : String) (m : Nat) : List Event :=
  if env.writeOk p then [Event.writeOp p, Event.chmodOp p m] else [Event.writeOp p]

/-- The state after the full provisioning sequence of `main` (directory, then
config, pre-hook, post-hook). -/
def provisionedState (env : Env) (s : OSState) : OSState :=
  (create_file_with_content_and_permissions env
    (create_file_with_content_and_permissions env
      (create_file_with_content_and_permissions env
        (create_directory_if_not_exists env s azure_dir).1
        config_dest CONFIG_CONTENT (S_IRUSR ||| S_IWUSR)).1
      pre_backup_dest PRE_BACKUP_CONTENT S_IRWXU).1
    post_backup_dest POST_BACKUP_CONTENT S_IRWXU).1

theorem config_ne_pre : config_dest ≠ pre_backup_dest := by decide

theorem config_ne_post : config_dest ≠ post_backup_dest := by decide

theorem pre_ne_post : pre_backup_dest ≠ post_backup_dest := by decide

theorem main_not_elevated (env : Env) (s : OSState)
    (hA : env.geteuidAvailable = true) (hU : env.euid ≠ 0) :
    main env s = (s, 1) := by
  have hcond : (env.geteuidAvailable && env.euid != 0) = true := by
    simp [hA, hU]
  simp [main, hcond]

theorem main_mkdir_fail (env : Env) (s : OSState)
    (hpass : (env.geteuidAvailable && env.euid != 0) = false)
    (hm : env.makedirsOk = false) :
    main env s = ((create_directory_if_not_exists env s azure_dir).1, 1) := by
  simp only [main, hpass, Bool.false_eq_true, if_false]
  rw [createDir_snd, hm]
  simp

theorem main_fst_pass (env : Env) (s : OSState)
    (hpass : (env.geteuidAvailable && env.euid != 0) = false)
    (hm : env.makedirsOk = true) :
    (main env s).1 = provisionedState env s := by
  simp only [main, hpass, Bool.false_eq_true, if_false]
  rw [createDir_snd, hm]
  simp only [Bool.not_true, Bool.false_eq_true, if_false]
  split <;> rfl

theorem main_snd_pass (env : Env) (s : OSState)
    (hpass : (env.geteuidAvailable && env.euid != 0) = false)
    (hm : env.makedirsOk = true) :
    (main env s).2 = if allArtifactsOk env then 0 else 1 := by
  simp only [main, hpass, Bool.false_eq_true, if_false]
  rw [createDir_snd, hm]
  simp only [Bool.not_true, Bool.false_eq_true, if_false]
  rw [createFile_snd, createFile_snd, createFile_snd]
  split <;> rename_i h
  · rw [if_pos]
    rw [allArtifactsOk, artifactOk, artifactOk, artifactOk]
    exact h
  · rw [if_neg]
    intro hall
    apply h
    rw [allArtifactsOk, artifactOk, artifactOk, artifactOk] at hall
    exact hall

theorem provisioned_events (env : Env) (s : OSState) :
    (provisionedState env s).events =
      s.events ++ [Event.mkdirOp azure_dir] ++
        artifactEvents env config_dest (S_IRUSR ||| S_IWUSR) ++
        artifactEvents env pre_backup_dest S_IRWXU ++
        artifactEvents env post_backup_dest S_IRWXU := by
  unfold provisionedState
  rw [createFile_events, createFile_events, createFile_events, createDir_events]
  simp [artifactEvents, List.append_assoc]

theorem provisioned_lookup_other (env : Env) (s : OSState) (q : String)
    (h1 : q ≠ config_dest) (h2 : q ≠ pre_backup_dest) (h3 : q ≠ post_backup_dest) :
    (provisionedState env s).fs.lookupFile q = s.fs.lookupFile q := by
  unfold provisionedState
  rw [createFile_lookup_ne _ _ _ _ _ _ h3, createFile_lookup_ne _ _ _ _ _ _ h2,
    createFile_lookup_ne _ _ _ _ _ _ h1, createDir_lookup]

theorem provisioned_lookup_config (env : Env) (s : OSState)
    (hw : env.writeOk config_dest = true) (hc : env.chmodOk config_dest = true) :
    (provisionedState env s).fs.lookupFile config_dest =
      some { content := CONFIG_CONTENT, mode := S_IRUSR ||| S_IWUSR } := by
  unfold provisionedState
  rw [createFile_lookup_ne _ _ _ _ _ _ config_ne_post,
    createFile_lookup_ne _ _ _ _ _ _ config_ne_pre,
    createFile_lookup_success _ _ _ _ _ hw hc]

theorem provisioned_lookup_pre (env : Env) (s : OSState)
    (hw : env.writeOk pre_backup_dest = true) (hc : env.chmodOk pre_backup_dest = true) :
    (provisionedState env s).fs.lookupFile pre_backup_dest =
      some { content := PRE_BACKUP_CONTENT, mode := S_IRWXU } := by
  unfold provisionedState
  rw [createFile_lookup_ne _ _ _ _ _ _ pre_ne_post,
    createFile_lookup_success _ _ _ _ _ hw hc]

theorem provisioned_lookup_post (env : Env) (s : OSState)
    (hw : env.writeOk post_backup_dest = true) (hc : env.chmodOk post_backup_dest = true) :
    (provisionedState env s).fs.lookupFile post_backup_dest =
      some { content := POST_BACKUP_CONTENT, mode := S_IRWXU } := by
  unfold provisionedState
  rw [createFile_lookup_success _ _ _ _ _ hw hc]

theorem provisioned_dirs_mem (env : Env) (s : OSState) (d : String)
    (hm : env.makedirsOk = true) :
    d ∈ (provisionedState env s).fs.dirs ↔
      d ∈ s.fs.dirs ∨ d ∈ ancestorPaths azure_dir := by
  unfold provisionedState
  rw [createFile_dirs, createFile_dirs, createFile_dirs]
  exact osMakedirs_dirs_mem env s azure_dir d hm

theorem provisioned_dirs_frame (env : Env) (s : OSState) (d : String)
    (hd : d ∉ ancestorPaths azure_dir) :
    d ∈ (provisionedState env s).fs.dirs ↔ d ∈ s.fs.dirs := by
  unfold provisionedState
  rw [createFile_dirs, createFile_dirs, createFile_dirs]
  exact osMakedirs_dirs_frame env s azure_dir d hd

theorem main_events_pass (env : Env) (s : OSState)
    (hpass : (env.geteuidAvailable && env.euid != 0) = false) :
    (main env s).1.events =
      s.events ++ [Event.mkdirOp azure_dir] ++
        (if env.makedirsOk then
          artifactEvents env config_dest (S_IRUSR ||| S_IWUSR) ++
            artifactEvents env pre_backup_dest S_IRWXU ++
            artifactEvents env post_backup_dest S_IRWXU
        else []) := by
  cases hm : env.makedirsOk
  · rw [main_mkdir_fail env s hpass hm, createDir_events]
    simp
  · rw [main_fst_pass env s hpass hm, provisioned_events]
    simp [List.append_assoc]

theorem main_priv (env : Env) (s : OSState)
    (h : (env.geteuidAvailable && env.euid != 0) = true) : main env s = (s, 1) := by
  simp [main, h]

theorem writeOp_mem_artifactEvents (env : Env) (p : String) (m : Nat) :
    Event.writeOp p ∈ artifactEvents env p m := by
  unfold artifactEvents
  by_cases h : env.writeOk p = true <;> simp [h]

/-! ### Concrete environments and states used by the witnesses -/

def envAllOk : Env :=
  { geteuidAvailable := true, euid := 0, makedirsOk := true,
    writeOk := fun _ => true, chmodOk := fun _ => true, createMode := 0o644 }

def envNoPriv : Env :=
  { geteuidAvailable := true, euid := 1000, makedirsOk := true,
    writeOk := fun _ => true, chmodOk := fun _ => true, createMode := 0o644 }

def envNoGeteuid : Env :=
  { geteuidAvailable := false, euid := 1000, makedirsOk := true,
    writeOk := fun _ => true, chmodOk := fun _ => true, createMode := 0o644 }

def envMkdirFail : Env :=
  { geteuidAvailable := true, euid := 0, makedirsOk := false,
    writeOk := fun _ => true, chmodOk := fun _ => true, createMode := 0o644 }

def envChmodFail : Env :=
  { geteuidAvailable := true, euid := 0, makedirsOk := true,
    writeOk := fun _ => true, chmodOk := fun _ => false, createMode := 0o644 }

def emptyState : OSState := { fs := { dirs := [], files := [] }, events := [] }

/-! ### The claims -/

/-- C1: an elevated run on a system without `/etc/azure`, in which every OS
call succeeds, creates the directory and writes exactly the three artifacts
with their literal contents and modes 0600 / 0700 / 0700; every other path is
untouched. -/
theorem backup_C1 (env : Env) (s : OSState)
    (hA : env.geteuidAvailable = true) (hU : env.euid = 0)
    (hm : env.makedirsOk = true)
    (hw : ∀ p, env.writeOk p = true) (hc : ∀ p, env.chmodOk p = true)
    (_hdir : azure_dir ∉ s.fs.dirs) :
    azure_dir ∈ (main env s).1.fs.dirs ∧
    (main env s).1.fs.lookupFile config_dest =
      some { content := CONFIG_CONTENT, mode := 0o600 } ∧
    (main env s).1.fs.lookupFile pre_backup_dest =
      some { content := PRE_BACKUP_CONTENT, mode := 0o700 } ∧
    (main env s).1.fs.lookupFile post_backup_dest =
      some { content := POST_BACKUP_CONTENT, mode := 0o700 } ∧
    ∀ q, q ≠ config_dest → q ≠ pre_backup_dest → q ≠ post_backup_dest →
      (main env s).1.fs.lookupFile q = s.fs.lookupFile q := by
  have hpass : (env.geteuidAvailable && env.euid != 0) = false := by simp [hA, hU]
  rw [main_fst_pass env s hpass hm]
  refine ⟨?_, ?_, ?_, ?_, ?_⟩
  · rw [provisioned_dirs_mem env s _ hm]
    right
    decide
  · rw [provisioned_lookup_config env s (hw _) (hc _)]
    rfl
  · rw [provisioned_lookup_pre env s (hw _) (hc _)]
    rfl
  · rw [provisioned_lookup_post env s (hw _) (hc _)]
    rfl
  · intro q h1 h2 h3
    exact provisioned_lookup_other env s q h1 h2 h3

/-- C2: a run whose effective user id exists and is nonzero exits with code 1
and leaves the whole state (filesystem and event trace) unchanged. -/
theorem backup_C2 (env : Env) (s : OSState)
    (hA : env.geteuidAvailable = true) (hU : env.euid ≠ 0) :
    main env s = (s, 1) :=
  main_not_elevated env s hA hU

/-- C3: once the directory step succeeded, all three artifact writes are
attempted whatever fails, and the exit code is 0 exactly when all three
artifacts succeeded (`artifactOk` = write and chmod both succeed), 1 exactly
when at least one failed. -/
theorem backup_C3 (env : Env) (s : OSState)
    (hA : env.geteuidAvailable = true) (hU : env.euid = 0)
    (hm : env.makedirsOk = true) :
    (Event.writeOp config_dest ∈ (main env s).1.events ∧
     Event.writeOp pre_backup_dest ∈ (main env s).1.events ∧
     Event.writeOp post_backup_dest ∈ (main env s).1.events) ∧
    ((main env s).2 = 0 ↔ allArtifactsOk env = true) ∧
    ((main env s).2 = 1 ↔ allArtifactsOk env = false) := by
  have hpass : (env.geteuidAvailable && env.euid != 0) = false := by simp [hA, hU]
  constructor
  · rw [main_events_pass env s hpass, hm]
    refine ⟨?_, ?_, ?_⟩ <;> simp [writeOp_mem_artifactEvents]
  · rw [main_snd_pass env s hpass hm]
    cases h : allArtifactsOk env <;> simp [h]

/-- C4: an elevated run in which the directory creation fails exits with
code 1, changes nothing in the filesystem, and attempts no artifact write
(the only event is the failed mkdir). -/
theorem backup_C4 (env : Env) (s : OSState)
    (hA : env.geteuidAvailable = true) (hU : env.euid = 0)
    (hm : env.makedirsOk = false) :
    (main env s).2 = 1 ∧ (main env s).1.fs = s.fs ∧
    (main env s).1.events = s.events ++ [Event.mkdirOp azure_dir] := by
  have hpass : (env.geteuidAvailable && env.euid != 0) = false := by simp [hA, hU]
  rw [main_mkdir_fail env s hpass hm]
  exact ⟨rfl, osMakedirs_fail_fs env s azure_dir hm, createDir_events env s azure_dir⟩

/-- The parsed form of `CONFIG_CONTENT`. -/
def expectedConfigJson : Json :=
  Json.obj
    [("pluginName", Json.str "ScriptRunner"),
     ("preScriptLocation", Json.str "/etc/azure/pre_backup.sh"),
     ("postScriptLocation", Json.str "/etc/azure/post_backup.sh"),
     ("preScriptParams", Json.arr [Json.str "", Json.str ""]),
     ("postScriptParams", Json.arr [Json.str "", Json.str ""]),
     ("preScriptNoOfRetries", Json.num 0),
     ("postScriptNoOfRetries", Json.num 0),
     ("timeoutInSeconds", Json.num 30),
     ("continueBackupOnFailure", Json.bool true),
     ("fsFreezeEnabled", Json.bool true)]

/-- C5: the config artifact is syntactically valid JSON and its object has
exactly the ten documented fields with the documented value shapes. -/
theorem backup_C5 :
    parseJsonTop CONFIG_CONTENT = some expectedConfigJson ∧
    hasConfigSchema expectedConfigJson = true :=
  ⟨rfl, rfl⟩

/-- The full provisioning trace in source order. -/
def canonicalEvents : List Event :=
  [Event.mkdirOp azure_dir,
   Event.writeOp config_dest, Event.chmodOp config_dest (S_IRUSR ||| S_IWUSR),
   Event.writeOp pre_backup_dest, Event.chmodOp pre_backup_dest S_IRWXU,
   Event.writeOp post_backup_dest, Event.chmodOp post_backup_dest S_IRWXU]

/-- C6: every elevated run performs its operations in source order: its trace
is a subsequence of the canonical mkdir / write-config / chmod-config /
write-pre / chmod-pre / write-post / chmod-post sequence, and it starts with
the directory step. -/
theorem backup_C6 (env : Env) (s : OSState)
    (hA : env.geteuidAvailable = true) (hU : env.euid = 0)
    (hs : s.events = []) :
    (main env s).1.events.Sublist canonicalEvents ∧
    (main env s).1.events.head? = some (Event.mkdirOp azure_dir) := by
  have hpass : (env.geteuidAvailable && env.euid != 0) = false := by simp [hA, hU]
  rw [main_events_pass env s hpass, hs]
  unfold artifactEvents
  cases hm : env.makedirsOk <;> cases h1 : env.writeOk config_dest <;>
    cases h2 : env.writeOk pre_backup_dest <;>
    cases h3 : env.writeOk post_backup_dest <;> decide

/-- C7: re-running from the state produced by a fully successful run succeeds
again and is idempotent: every file lookup (content and permission bits) and
every directory membership is unchanged by the second run. -/
theorem backup_C7 (env1 env2 : Env) (s : OSState)
    (hA1 : env1.geteuidAvailable = true) (hU1 : env1.euid = 0)
    (hm1 : env1.makedirsOk = true)
    (hw1 : ∀ p, env1.writeOk p = true) (hc1 : ∀ p, env1.chmodOk p = true)
    (hA2 : env2.geteuidAvailable = true) (hU2 : env2.euid = 0)
    (hm2 : env2.makedirsOk = true)
    (hw2 : ∀ p, env2.writeOk p = true) (hc2 : ∀ p, env2.chmodOk p = true) :
    (main env1 s).2 = 0 ∧
    (main env2 (main env1 s).1).2 = 0 ∧
    (∀ p, (main env2 (main env1 s).1).1.fs.lookupFile p =
      (main env1 s).1.fs.lookupFile p) ∧
    (∀ d, d ∈ (main env2 (main env1 s).1).1.fs.dirs ↔
      d ∈ (main env1 s).1.fs.dirs) := by
  have hpass1 : (env1.geteuidAvailable && env1.euid != 0) = false := by simp [hA1, hU1]
  have hpass2 : (env2.geteuidAvailable && env2.euid != 0) = false := by simp [hA2, hU2]
  have hall1 : allArtifactsOk env1 = true := by
    simp [allArtifactsOk, artifactOk, hw1, hc1]
  have hall2 : allArtifactsOk env2 = true := by
    simp [allArtifactsOk, artifactOk, hw2, hc2]
  refine ⟨?_, ?_, ?_, ?_⟩
  · rw [main_snd_pass env1 s hpass1 hm1]
    simp [hall1]
  · rw [main_snd_pass env2 _ hpass2 hm2]
    simp [hall2]
  · intro p
    rw [main_fst_pass env2 _ hpass2 hm2, main_fst_pass env1 s hpass1 hm1]
    by_cases h1 : p = config_dest
    · subst h1
      rw [provisioned_lookup_config env2 _ (hw2 _) (hc2 _),
        provisioned_lookup_config env1 s (hw1 _) (hc1 _)]
    · by_cases h2 : p = pre_backup_dest
      · subst h2
        rw [provisioned_lookup_pre env2 _ (hw2 _) (hc2 _),
          provisioned_lookup_pre env1 s (hw1 _) (hc1 _)]
      · by_cases h3 : p = post_backup_dest
        · subst h3
          rw [provisioned_lookup_post env2 _ (hw2 _) (hc2 _),
            provisioned_lookup_post env1 s (hw1 _) (hc1 _)]
        · exact provisioned_lookup_other env2 _ p h1 h2 h3
  · intro d
    rw [main_fst_pass env2 _ hpass2 hm2, main_fst_pass env1 s hpass1 hm1]
    rw [provisioned_dirs_mem env2 _ d hm2, provisioned_dirs_mem env1 s d hm1]
    tauto

/-- C8: each artifact write writes the content first and sets the permission
bits second; it reports success exactly when both steps succeed, and once the
content write succeeded the new content stays on disk whatever happens to the
chmod (no rollback). -/
theorem backup_C8 (env : Env) (s : OSState) (p c : String) (m : Nat) :
    (create_file_with_content_and_permissions env s p c m).1.events =
      s.events ++ (if env.writeOk p then [Event.writeOp p, Event.chmodOp p m]
        else [Event.writeOp p]) ∧
    (create_file_with_content_and_permissions env s p c m).2 =
      (env.writeOk p && env.chmodOk p) ∧
    (env.writeOk p = true →
      ((create_file_with_content_and_permissions env s p c m).1.fs.lookupFile p).map
        FileEntry.content = some c) :=
  ⟨createFile_events env s p c m, createFile_snd env s p c m,
    fun hw => createFile_content env s p c m hw⟩

/-- C9: the privilege check exists only when `os.geteuid` does: with it
present and nonzero the run exits with code 1 having done nothing; with euid
zero, or with no `geteuid` at all (whatever the euid), the run proceeds to
provisioning, witnessed by the attempted mkdir. -/
theorem backup_C9 (env : Env) (s : OSState) :
    (env.geteuidAvailable = true → env.euid ≠ 0 → main env s = (s, 1)) ∧
    (env.geteuidAvailable = false →
      Event.mkdirOp azure_dir ∈ (main env s).1.events) ∧
    (env.geteuidAvailable = true → env.euid = 0 →
      Event.mkdirOp azure_dir ∈ (main env s).1.events) := by
  refine ⟨fun hA hU => main_not_elevated env s hA hU, fun hA => ?_, fun hA hU => ?_⟩
  · have hpass : (env.geteuidAvailable && env.euid != 0) = false := by simp [hA]
    rw [main_events_pass env s hpass]
    simp
  · have hpass : (env.geteuidAvailable && env.euid != 0) = false := by simp [hA, hU]
    rw [main_events_pass env s hpass]
    simp

/-- C10: frame property — a run can only create the `/etc/azure` directory
chain and write the three artifact paths; every other file (content and
permission bits) and every other directory is unchanged, whatever the
privileges and OS outcomes. -/
theorem backup_C10 (env : Env) (s : OSState) :
    (∀ q, q ≠ config_dest → q ≠ pre_backup_dest → q ≠ post_backup_dest →
      (main env s).1.fs.lookupFile q = s.fs.lookupFile q) ∧
    (∀ d, d ∉ ancestorPaths azure_dir →
      (d ∈ (main env s).1.fs.dirs ↔ d ∈ s.fs.dirs)) := by
  by_cases hp : (env.geteuidAvailable && env.euid != 0) = true
  · rw [main_priv env s hp]
    exact ⟨fun q _ _ _ => rfl, fun d _ => Iff.rfl⟩
  · have hpass : (env.geteuidAvailable && env.euid != 0) = false := by
      cases h : (env.geteuidAvailable && env.euid != 0)
      · rfl
      · exact absurd h hp
    cases hm : env.makedirsOk
    · rw [main_mkdir_fail env s hpass hm]
      dsimp only
      unfold create_directory_if_not_exists
      rw [osMakedirs_fail_fs env s azure_dir hm]
      exact ⟨fun q _ _ _ => rfl, fun d _ => Iff.rfl⟩
    · rw [main_fst_pass env s hpass hm]
      exact ⟨fun q h1 h2 h3 => provisioned_lookup_other env s q h1 h2 h3,
        fun d hd => provisioned_dirs_frame env s d hd⟩

/-! ### Witnesses: the claims evaluated at concrete inputs -/

theorem backup_C1_witness :
    azure_dir ∈ (main envAllOk emptyState).1.fs.dirs ∧
    (main envAllOk emptyState).1.fs.lookupFile config_dest =
      some { content := CONFIG_CONTENT, mode := 0o600 } ∧
    (main envAllOk emptyState).1.fs.lookupFile pre_backup_dest =
      some { content := PRE_BACKUP_CONTENT, mode := 0o700 } ∧
    (main envAllOk emptyState).1.fs.lookupFile post_backup_dest =
      some { content := POST_BACKUP_CONTENT, mode := 0o700 } ∧
    (main envAllOk emptyState).1.fs.lookupFile "/etc/passwd" =
      emptyState.fs.lookupFile "/etc/passwd" := by
  have h := backup_C1 envAllOk emptyState rfl rfl rfl (fun _ => rfl) (fun _ => rfl)
    (by decide)
  exact ⟨h.1, h.2.1, h.2.2.1, h.2.2.2.1,
    h.2.2.2.2 "/etc/passwd" (by decide) (by decide) (by decide)⟩

theorem backup_C2_witness : main envNoPriv emptyState = (emptyState, 1) :=
  backup_C2 envNoPriv emptyState rfl (by decide)

theorem backup_C3_witness :
    Event.writeOp config_dest ∈ (main envAllOk emptyState).1.events ∧
    Event.writeOp pre_backup_dest ∈ (main envAllOk emptyState).1.events ∧
    Event.writeOp post_backup_dest ∈ (main envAllOk emptyState).1.events ∧
    (main envAllOk emptyState).2 = 0 := by
  have h := backup_C3 envAllOk emptyState rfl rfl rfl
  exact ⟨h.1.1, h.1.2.1, h.1.2.2, h.2.1.mpr rfl⟩

theorem backup_C4_witness :
    (main envMkdirFail emptyState).2 = 1 ∧
    (main envMkdirFail emptyState).1.fs = emptyState.fs ∧
    (main envMkdirFail emptyState).1.events =
      emptyState.events ++ [Event.mkdirOp azure_dir] :=
  backup_C4 envMkdirFail emptyState rfl rfl rfl

theorem backup_C6_witness :
    (main envAllOk emptyState).1.events.Sublist canonicalEvents ∧
    (main envAllOk emptyState).1.events.head? = some (Event.mkdirOp azure_dir) :=
  backup_C6 envAllOk emptyState rfl rfl rfl

theorem backup_C7_witness :
    (main envAllOk emptyState).2 = 0 ∧
    (main envAllOk (main envAllOk emptyState).1).2 = 0 ∧
    (main envAllOk (main envAllOk emptyState).1).1.fs.lookupFile config_dest =
      (main envAllOk emptyState).1.fs.lookupFile config_dest ∧
    (azure_dir ∈ (main envAllOk (main envAllOk emptyState).1).1.fs.dirs ↔
      azure_dir ∈ (main envAllOk emptyState).1.fs.dirs) := by
  have h := backup_C7 envAllOk envAllOk emptyState rfl rfl rfl (fun _ => rfl)
    (fun _ => rfl) rfl rfl rfl (fun _ => rfl) (fun _ => rfl)
  exact ⟨h.1, h.2.1, h.2.2.1 config_dest, h.2.2.2 azure_dir⟩

theorem backup_C8_witness :
    (create_file_with_content_and_permissions envChmodFail emptyState
      "/etc/azure/f" "hello" 448).2 = false ∧
    ((create_file_with_content_and_permissions envChmodFail emptyState
      "/etc/azure/f" "hello" 448).1.fs.lookupFile "/etc/azure/f").map
      FileEntry.content = some "hello" := by
  have h := backup_C8 envChmodFail emptyState "/etc/azure/f" "hello" 448
  refine ⟨?_, h.2.2 rfl⟩
  rw [h.2.1]
  rfl

theorem backup_C9_witness :
    main envNoPriv emptyState = (emptyState, 1) ∧
    Event.mkdirOp azure_dir ∈ (main envNoGeteuid emptyState).1.events :=
  ⟨(backup_C9 envNoPriv emptyState).1 rfl (by decide),
    (backup_C9 envNoGeteuid emptyState).2.1 rfl⟩

theorem backup_C10_witness :
    (main envAllOk emptyState).1.fs.lookupFile "/etc/passwd" =
      emptyState.fs.lookupFile "/etc/passwd" ∧
    ("/home" ∈ (main envAllOk emptyState).1.fs.dirs ↔
      "/home" ∈ emptyState.fs.dirs) :=
  ⟨(backup_C10 envAllOk emptyState).1 "/etc/passwd" (by decide) (by decide) (by decide),
    (backup_C10 envAllOk emptyState).2 "/home" (by decide)⟩

end BackupSetup
